import Mathlib

/-!
Subproject bundles: `configs/common/subprojects/bundles.js`

A shallow embedding of the bundle table `subprojects` and of the exported
function that maps a list of subproject names to their table entries.

The module `./react` that the file requires is not part of the sources, so
the two values it is read for (`reactLibs.react`, `reactLibs.reactDom`) are a
parameter of the embedding.
-/

set_option autoImplicit false

namespace Bundles

/-! ## Values -/

/-- An object literal of the table: `{ src, include, dest }`, where `include`
may be left out. -/
structure BundleSpec where
  src : String
  «include» : Option (List String)
  dest : String
deriving DecidableEq, Repr

/-- The JavaScript values the embedding tells apart. `inherited name` is the
value found under `name` on `Object.prototype`; `other ref` stands for any
further value that is not `undefined` (a number, a function, an object of
another shape), identified by a reference. -/
inductive JSValue where
  | undefined
  | null
  | boolean (b : Bool)
  | string (s : String)
  | object (spec : BundleSpec)
  | inherited (name : String)
  | other (ref : Nat)
deriving DecidableEq, Repr

/-- An `Error` object, carrying its message. -/
structure JSError where
  message : String
deriving DecidableEq, Repr

/-- The own properties of a plain object, in the order the literal lists them. -/
abbrev JSObject := List (String × JSValue)

/-- The names of the own properties of `Object.prototype`, which every object
created by an object literal inherits. -/
def objectPrototype : List String :=
  ["constructor", "__defineGetter__", "__defineSetter__", "hasOwnProperty",
   "__lookupGetter__", "__lookupSetter__", "isPrototypeOf", "propertyIsEnumerable",
   "toString", "valueOf", "__proto__", "toLocaleString"]

/-- The own property names of an object. -/
def JSObject.keys (o : JSObject) : List String := o.map Prod.fst

/-- Property read `o[m]` on an object created by a literal: the own property
when there is one (whatever its value), otherwise the property inherited from
`Object.prototype`, otherwise `undefined`. -/
def JSObject.get (o : JSObject) (m : String) : JSValue :=
  match o.lookup m with
  | some v => v
  | none => if m ∈ objectPrototype then JSValue.inherited m else JSValue.undefined

/-! ## The table -/

/-- What `require('./react')` is read for: its properties `react` and
`reactDom`. A property the module does not export reads as `undefined`. -/
structure ReactLibs where
  react : JSValue
  reactDom : JSValue
deriving DecidableEq, Repr

/-- The 23 entries the file defines by object literals, in source order. -/
def definedBundles : List (String × BundleSpec) :=
  [ ("qrcodejs",
      { src := "node_modules/qrcodejs", «include» := some ["qrcode.min.js"], dest := "vendor" }),
    ("tablesorter",
      { src := "node_modules/tablesorter/dist/js",
        «include» := some ["jquery.tablesorter.min.js"], dest := "vendor" }),
    ("chai",
      { src := "node_modules/chai", «include» := some ["chai.js"], dest := "vendor" }),
    ("chai-dom",
      { src := "node_modules/chai-dom", «include» := some ["chai-dom.js"], dest := "vendor" }),
    ("mocha",
      { src := "node_modules/mocha", «include» := some ["mocha.css", "mocha.js"],
        dest := "vendor" }),
    ("core-js",
      { src := "node_modules/core-js/client", «include» := some ["core.js"], dest := "vendor" }),
    ("ua-parser-js",
      { src := "node_modules/ua-parser-js/dist", «include» := some ["ua-parser.min.js"],
        dest := "vendor" }),
    ("moment",
      { src := "node_modules/moment/min", «include» := some ["moment.min.js"],
        dest := "vendor" }),
    ("moment-range",
      { src := "node_modules/moment-range/dist", «include» := some ["moment-range.js"],
        dest := "vendor" }),
    ("simple-statistics",
      { src := "node_modules/simple-statistics/dist",
        «include» := some ["simple-statistics.min.js"], dest := "vendor" }),
    ("@cliqz/adblocker",
      { src := "node_modules/@cliqz/adblocker",
        «include» := some ["adblocker.umd.js", "adblocker-cosmetics.umd.js"],
        dest := "vendor" }),
    ("cliqz-history",
      { src := "node_modules/cliqz-history/dist", «include» := none, dest := "cliqz-history" }),
    ("@cliqz-oss/dexie",
      { src := "node_modules/@cliqz-oss/dexie/dist", «include» := some ["dexie.min.js"],
        dest := "vendor" }),
    ("@cliqz-oss/pouchdb",
      { src := "node_modules/@cliqz-oss/pouchdb/dist", «include» := some ["pouchdb.js"],
        dest := "vendor" }),
    ("jquery",
      { src := "node_modules/jquery/dist", «include» := some ["jquery.min.js"],
        dest := "vendor" }),
    ("handlebars",
      { src := "node_modules/handlebars/dist", «include» := some ["handlebars.min.js"],
        dest := "vendor" }),
    ("mathjs",
      { src := "node_modules/mathjs/dist", «include» := some ["math.min.js"], dest := "vendor" }),
    ("rxjs",
      { src := "node_modules/rxjs/bundles", «include» := some ["Rx.min.js"], dest := "vendor" }),
    ("pako",
      { src := "node_modules/pako/dist", «include» := some ["pako.min.js"], dest := "vendor" }),
    ("tooltipster-js",
      { src := "node_modules/tooltipster/dist/js",
        «include» := some ["tooltipster.bundle.min.js"], dest := "vendor" }),
    ("tooltipster-css",
      { src := "node_modules/tooltipster/dist/css",
        «include» := some ["tooltipster.bundle.min.css"], dest := "vendor" }),
    ("tooltipster-sideTip-theme",
      { src := "node_modules/tooltipster/dist/css/plugins/tooltipster/sideTip/themes",
        «include» := some ["tooltipster-sideTip-shadow.min.css"], dest := "vendor" }),
    ("tldjs",
      { src := "node_modules/tldjs", «include» := some ["tld.min.js"], dest := "vendor" }) ]

/-- The object `subprojects`: the two values read from `./react`, then the
entries defined in the file. -/
def subprojects (reactLibs : ReactLibs) : JSObject :=
  ("react", reactLibs.react) :: ("reactDom", reactLibs.reactDom) ::
    definedBundles.map (fun kv => (kv.1, JSValue.object kv.2))

/-- The 25 property names of `subprojects`, in source order. -/
def subprojectNames : List String :=
  "react" :: "reactDom" :: definedBundles.map Prod.fst

/-! ## The exported function -/

/-- The module-level state the exported function can reach. -/
structure Heap where
  subprojects : JSObject
deriving DecidableEq, Repr

/-- The body of the arrow function handed to `forEach`, run on one name `m`
with the array `result` built so far: it throws when `subprojects[m]` is
`undefined` and otherwise pushes `subprojects[m]`. It returns the outcome
together with the heap it leaves behind. -/
def callback (m : String) (result : List JSValue) (h : Heap) :
    Except JSError (List JSValue) × Heap :=
  if h.subprojects.get m = JSValue.undefined then
    (Except.error { message := "Could not find subproject: " ++ m }, h)
  else
    (Except.ok (result ++ [h.subprojects.get m]), h)

/-- The loop `modules.forEach(...)`: the callback runs on each name from left to
right and the first throw ends the loop. -/
def forEach : List String → List JSValue → Heap → Except JSError (List JSValue) × Heap
  | [], result, h => (Except.ok result, h)
  | m :: ms, result, h =>
    match callback m result h with
    | (Except.error e, h') => (Except.error e, h')
    | (Except.ok result', h') => forEach ms result' h'

/-- The function assigned to `module.exports`: `result` starts empty, the loop
fills it, and it is returned. -/
def moduleExports (modules : List String) (h : Heap) :
    Except JSError (List JSValue) × Heap :=
  forEach modules [] h

/-- The exported function run against the table of this module. -/
def resolve (reactLibs : ReactLibs) (modules : List String) :
    Except JSError (List JSValue) :=
  (moduleExports modules { subprojects := subprojects reactLibs }).1

/-! ## Notions used to state the properties -/

/-- A `./react` module exporting neither `react` nor `reactDom` (for instance
one whose `module.exports` is `{}`): both reads give `undefined`. -/
def emptyReactLibs : ReactLibs :=
  { react := JSValue.undefined, reactDom := JSValue.undefined }

/-- A `./react` module exporting two bundle objects, used to instantiate
statements at a concrete table. -/
def sampleReactLibs : ReactLibs :=
  { react := JSValue.object
      { src := "node_modules/react/umd", «include» := some ["react.production.min.js"],
        dest := "vendor" },
    reactDom := JSValue.object
      { src := "node_modules/react-dom/umd",
        «include» := some ["react-dom.production.min.js"], dest := "vendor" } }

/-- The message of the error thrown for the name `m`. -/
def notFound (m : String) : JSError :=
  { message := "Could not find subproject: " ++ m }

/-- Two strings are equal when the case of the letters `A`-`Z` is ignored. -/
abbrev sameUpToCase (a b : String) : Prop :=
  a.data.map Char.toLower = b.data.map Char.toLower

/-- Modelled from the spec: the module `./react` is not among the sources. The
registry of the spec maps every bundle name to a BundleSpec, and the table takes
`react` and `reactDom` over from that module ("Re-export react libs"), so the two
values it reads from the module are bundle objects. -/
def ReactLibs.exportsBundles (r : ReactLibs) : Prop :=
  ∃ a b : BundleSpec, r.react = JSValue.object a ∧ r.reactDom = JSValue.object b

/-- Modelled from the spec: the module `./react` is not among the sources. The
invariant of the spec, "every key in the registry has a non-empty
sourceDirectory and destinationDirectory", read at the two entries the table
takes over from that module: both are bundle objects whose `src` and `dest` are
non-empty. -/
def ReactLibs.exportsNonEmpty (r : ReactLibs) : Prop :=
  ∃ a b : BundleSpec, r.react = JSValue.object a ∧ r.reactDom = JSValue.object b ∧
    a.src ≠ "" ∧ a.dest ≠ "" ∧ b.src ≠ "" ∧ b.dest ≠ ""

/-! ## Lemmas on property reads -/

theorem keys_subprojects (r : ReactLibs) : (subprojects r).keys = subprojectNames := rfl

theorem lookup_eq_none_iff_not_mem_keys (o : JSObject) (m : String) :
    o.lookup m = none ↔ m ∉ o.keys := by
  induction o with
  | nil => simp [JSObject.keys]
  | cons kv rest ih =>
    obtain ⟨k, v⟩ := kv
    by_cases hk : m = k
    · subst hk
      simp [List.lookup, JSObject.keys]
    · have hb : (m == k) = false := by simpa using hk
      have ih' : List.lookup m rest = none ↔ m ∉ List.map Prod.fst rest := by
        simpa [JSObject.keys] using ih
      simp [List.lookup, JSObject.keys, hb, hk, ih']

theorem lookup_of_mem_keys (o : JSObject) (m : String) (hm : m ∈ o.keys) :
    ∃ v, o.lookup m = some v := by
  cases hl : o.lookup m with
  | none => exact absurd hm ((lookup_eq_none_iff_not_mem_keys o m).1 hl)
  | some v => exact ⟨v, rfl⟩

theorem get_of_lookup (o : JSObject) (m : String) (v : JSValue) (hl : o.lookup m = some v) :
    o.get m = v := by
  simp [JSObject.get, hl]

/-! ## Lemmas on the loop -/

theorem callback_heap (m : String) (result : List JSValue) (h : Heap) :
    (callback m result h).2 = h := by
  unfold callback
  split <;> rfl

theorem forEach_cons_of_undefined (m : String) (ms : List String) (result : List JSValue)
    (h : Heap) (hm : h.subprojects.get m = JSValue.undefined) :
    forEach (m :: ms) result h = (Except.error (notFound m), h) := by
  simp [forEach, callback, hm, notFound]

theorem forEach_cons_of_defined (m : String) (ms : List String) (result : List JSValue)
    (h : Heap) (hm : h.subprojects.get m ≠ JSValue.undefined) :
    forEach (m :: ms) result h = forEach ms (result ++ [h.subprojects.get m]) h := by
  simp [forEach, callback, hm]

theorem forEach_heap (ms : List String) (result : List JSValue) (h : Heap) :
    (forEach ms result h).2 = h := by
  induction ms generalizing result with
  | nil => rfl
  | cons m ms ih =>
    by_cases hm : h.subprojects.get m = JSValue.undefined
    · rw [forEach_cons_of_undefined m ms result h hm]
    · rw [forEach_cons_of_defined m ms result h hm]
      exact ih _

theorem forEach_of_all_defined (ms : List String) (result : List JSValue) (h : Heap)
    (hall : ∀ m ∈ ms, h.subprojects.get m ≠ JSValue.undefined) :
    forEach ms result h = (Except.ok (result ++ ms.map h.subprojects.get), h) := by
  induction ms generalizing result with
  | nil => simp [forEach]
  | cons m ms ih =>
    rw [forEach_cons_of_defined m ms result h (hall m (List.mem_cons_self m ms))]
    rw [ih _ (fun n hn => hall n (List.mem_cons_of_mem m hn))]
    simp

theorem forEach_append_of_all_defined (pre rest : List String) (result : List JSValue)
    (h : Heap) (hall : ∀ m ∈ pre, h.subprojects.get m ≠ JSValue.undefined) :
    forEach (pre ++ rest) result h = forEach rest (result ++ pre.map h.subprojects.get) h := by
  induction pre generalizing result with
  | nil => simp
  | cons m pre ih =>
    rw [List.cons_append,
      forEach_cons_of_defined m (pre ++ rest) result h (hall m (List.mem_cons_self m pre))]
    rw [ih _ (fun n hn => hall n (List.mem_cons_of_mem m hn))]
    simp

/-- Every list of names splits at its first name that reads as `undefined`,
if it has one. -/
theorem split_at_first_undefined (o : JSObject) (ms : List String) :
    (∀ m ∈ ms, o.get m ≠ JSValue.undefined) ∨
    ∃ pre m post, ms = pre ++ m :: post ∧ (∀ n ∈ pre, o.get n ≠ JSValue.undefined) ∧
      o.get m = JSValue.undefined := by
  induction ms with
  | nil => left; simp
  | cons a ms ih =>
    by_cases ha : o.get a = JSValue.undefined
    · right
      exact ⟨[], a, ms, rfl, by simp, ha⟩
    · rcases ih with hall | ⟨pre, m, post, hsplit, hpre, hm⟩
      · left
        intro n hn
        rcases List.mem_cons.1 hn with rfl | hn
        · exact ha
        · exact hall n hn
      · right
        refine ⟨a :: pre, m, post, by simp [hsplit], ?_, hm⟩
        intro n hn
        rcases List.mem_cons.1 hn with rfl | hn
        · exact ha
        · exact hpre n hn

theorem forEach_of_first_undefined (pre post : List String) (m : String)
    (result : List JSValue) (h : Heap)
    (hpre : ∀ n ∈ pre, h.subprojects.get n ≠ JSValue.undefined)
    (hm : h.subprojects.get m = JSValue.undefined) :
    forEach (pre ++ m :: post) result h = (Except.error (notFound m), h) := by
  rw [forEach_append_of_all_defined pre (m :: post) result h hpre]
  exact forEach_cons_of_undefined m post _ h hm

/-! ## Lemmas on the table -/

theorem lookup_defined (r : ReactLibs) (n : String) (hn : n ∈ definedBundles.map Prod.fst) :
    ∃ b, (subprojects r).lookup n = some (JSValue.object b) ∧ b.src ≠ "" ∧ b.dest ≠ "" := by
  simp only [definedBundles, List.map] at hn
  fin_cases hn <;> exact ⟨_, rfl, by decide, by decide⟩

theorem names_distinct_up_to_case :
    ∀ p ∈ subprojectNames ++ objectPrototype, ∀ k ∈ subprojectNames,
      sameUpToCase p k → p = k := by
  decide

theorem lookup_of_exportsBundles (r : ReactLibs) (hr : r.exportsBundles) (n : String)
    (hn : n ∈ subprojectNames) :
    ∃ spec, (subprojects r).lookup n = some (JSValue.object spec) := by
  obtain ⟨a, b, ha, hb⟩ := hr
  rcases List.mem_cons.1 hn with h | h
  · subst h
    exact ⟨a, by rw [← ha]; rfl⟩
  · rcases List.mem_cons.1 h with h | h
    · subst h
      exact ⟨b, by rw [← hb]; rfl⟩
    · obtain ⟨spec, hspec, -, -⟩ := lookup_defined r n h
      exact ⟨spec, hspec⟩

theorem resolve_eq (r : ReactLibs) (ms : List String) :
    resolve r ms = (forEach ms [] { subprojects := subprojects r }).1 := rfl

theorem resolve_of_all_defined (r : ReactLibs) (ms : List String)
    (hall : ∀ m ∈ ms, (subprojects r).get m ≠ JSValue.undefined) :
    resolve r ms = Except.ok (ms.map (subprojects r).get) := by
  rw [resolve_eq, forEach_of_all_defined ms [] { subprojects := subprojects r } hall]
  simp

theorem resolve_of_first_undefined (r : ReactLibs) (pre post : List String) (m : String)
    (hpre : ∀ n ∈ pre, (subprojects r).get n ≠ JSValue.undefined)
    (hm : (subprojects r).get m = JSValue.undefined) :
    resolve r (pre ++ m :: post) = Except.error (notFound m) := by
  rw [resolve_eq,
    forEach_of_first_undefined pre post m [] { subprojects := subprojects r } hpre hm]

theorem resolve_ok_inv (r : ReactLibs) (ms : List String) (out : List JSValue)
    (hok : resolve r ms = Except.ok out) :
    out = ms.map (subprojects r).get ∧ ∀ m ∈ ms, (subprojects r).get m ≠ JSValue.undefined := by
  rcases split_at_first_undefined (subprojects r) ms with hall | ⟨pre, m, post, hs, hpre, hm⟩
  · rw [resolve_of_all_defined r ms hall] at hok
    exact ⟨(Except.ok.inj hok).symm, hall⟩
  · rw [hs, resolve_of_first_undefined r pre post m hpre hm] at hok
    cases hok

theorem resolve_error_inv (r : ReactLibs) (ms : List String) (e : JSError)
    (herr : resolve r ms = Except.error e) :
    ∃ pre m post, ms = pre ++ m :: post ∧
      (∀ n ∈ pre, (subprojects r).get n ≠ JSValue.undefined) ∧
      (subprojects r).get m = JSValue.undefined ∧ e = notFound m := by
  rcases split_at_first_undefined (subprojects r) ms with hall | ⟨pre, m, post, hs, hpre, hm⟩
  · rw [resolve_of_all_defined r ms hall] at herr
    cases herr
  · refine ⟨pre, m, post, hs, hpre, hm, ?_⟩
    rw [hs, resolve_of_first_undefined r pre post m hpre hm] at herr
    exact (Except.error.inj herr).symm

/-! ## The claims -/

/-- Claim C1: against a `./react` module that exports two bundle objects, for
every list of names each of which is one of the 25 property names of
`subprojects` (`react` and `reactDom` included), the exported function returns a
list of the same length whose element at each position is the table's value for
the name at that position; in particular, for every property name `n`,
`resolve [n]` is the one-element list holding the bundle registered for `n`. -/
theorem resolve_known_names (r : ReactLibs) (hr : r.exportsBundles) :
    (∀ names : List String, (∀ n ∈ names, n ∈ subprojectNames) →
      ∃ out, resolve r names = Except.ok out ∧ out.length = names.length ∧
        ∀ (i : Nat) (hi : i < names.length) (ho : i < out.length),
          (subprojects r).lookup names[i] = some out[i]) ∧
    (∀ n ∈ subprojectNames, ∃ spec,
      (subprojects r).lookup n = some (JSValue.object spec) ∧
      resolve r [n] = Except.ok [JSValue.object spec]) := by
  have key : ∀ n, n ∈ subprojectNames →
      (subprojects r).lookup n = some ((subprojects r).get n) ∧
        (subprojects r).get n ≠ JSValue.undefined := by
    intro n hn
    obtain ⟨spec, hspec⟩ := lookup_of_exportsBundles r hr n hn
    rw [get_of_lookup _ n _ hspec]
    exact ⟨hspec, by simp⟩
  constructor
  · intro names hnames
    have hall : ∀ m ∈ names, (subprojects r).get m ≠ JSValue.undefined :=
      fun m hm => (key m (hnames m hm)).2
    refine ⟨names.map (subprojects r).get, resolve_of_all_defined r names hall, by simp, ?_⟩
    intro i hi ho
    rw [List.getElem_map]
    exact (key _ (hnames _ (List.getElem_mem hi))).1
  · intro n hn
    obtain ⟨spec, hspec⟩ := lookup_of_exportsBundles r hr n hn
    have hg : (subprojects r).get n = JSValue.object spec := get_of_lookup _ n _ hspec
    refine ⟨spec, hspec, ?_⟩
    have := resolve_of_all_defined r [n] (by
      intro m hm
      rw [List.mem_singleton.1 hm, hg]
      simp)
    rw [this]
    simp [hg]

/-- Claim C1, witness: the statement applied to the names `react`, `jquery`,
`reactDom`, `react` against a module that exports two bundle objects. -/
theorem resolve_known_names_witness :
    sampleReactLibs.exportsBundles ∧
    (∀ n ∈ ["react", "jquery", "reactDom", "react"], n ∈ subprojectNames) ∧
    ∃ out, resolve sampleReactLibs ["react", "jquery", "reactDom", "react"] = Except.ok out ∧
      out.length = ["react", "jquery", "reactDom", "react"].length ∧
      ∀ (i : Nat) (hi : i < ["react", "jquery", "reactDom", "react"].length)
        (ho : i < out.length),
        (subprojects sampleReactLibs).lookup ["react", "jquery", "reactDom", "react"][i] =
          some out[i] :=
  ⟨⟨_, _, rfl, rfl⟩, by decide,
   (resolve_known_names sampleReactLibs ⟨_, _, rfl, rfl⟩).1
     ["react", "jquery", "reactDom", "react"] (by decide)⟩

/-- Claim C2, at the failing input: `toString` is not a property name of
`subprojects`, so the list `["toString"]` holds a name absent from the table, yet
the exported function throws nothing and returns a list, holding the value
inherited from `Object.prototype`; likewise `["jquery", "constructor"]` is
resolved to two elements. On the input of the claim's own scenario,
`["jquery", "not-a-real-bundle"]`, the error naming `not-a-real-bundle` is
thrown. -/
theorem resolve_unknown_inherited (r : ReactLibs) :
    "toString" ∉ (subprojects r).keys ∧
    resolve r ["toString"] = Except.ok [JSValue.inherited "toString"] ∧
    "constructor" ∉ (subprojects r).keys ∧
    resolve r ["jquery", "constructor"] =
      Except.ok [(subprojects r).get "jquery", JSValue.inherited "constructor"] ∧
    resolve r ["jquery", "not-a-real-bundle"] =
      Except.error { message := "Could not find subproject: not-a-real-bundle" } :=
  ⟨by rw [keys_subprojects]; decide, rfl, by rw [keys_subprojects]; decide, rfl, rfl⟩

/-- Claim C3: `resolve ["jquery"]` returns exactly one element, whose source
directory is `node_modules/jquery/dist`, whose list of included files is exactly
`["jquery.min.js"]` and whose destination directory is `vendor`. -/
theorem resolve_jquery (r : ReactLibs) :
    ∃ spec, resolve r ["jquery"] = Except.ok [JSValue.object spec] ∧
      spec.src = "node_modules/jquery/dist" ∧
      spec.«include» = some ["jquery.min.js"] ∧
      spec.dest = "vendor" :=
  ⟨_, rfl, rfl, rfl, rfl⟩

/-- Claim C4: on the empty list the exported function returns the empty list and
does not throw, whatever the table holds. -/
theorem resolve_empty :
    (∀ h : Heap, (moduleExports [] h).1 = Except.ok []) ∧
    (∀ r : ReactLibs, resolve r [] = Except.ok []) :=
  ⟨fun _ => rfl, fun _ => rfl⟩

/-- Claim C5: whenever the exported function returns a list, that list is as long
as the input, and at any two positions holding the same name the two output
elements are equal. -/
theorem resolve_duplicates (r : ReactLibs) (names : List String) (out : List JSValue)
    (hok : resolve r names = Except.ok out) :
    out.length = names.length ∧
    ∀ (i j : Nat) (hi : i < names.length) (hj : j < names.length)
      (hi' : i < out.length) (hj' : j < out.length),
      names[i] = names[j] → out[i] = out[j] := by
  obtain ⟨hout, -⟩ := resolve_ok_inv r names out hok
  subst hout
  refine ⟨by simp, ?_⟩
  intro i j hi hj hi' hj' hij
  rw [List.getElem_map, List.getElem_map, hij]

/-- Claim C5, witness: `resolve ["jquery", "jquery"]` has length 2 and equal
elements at both positions. -/
theorem resolve_duplicates_witness :
    resolve sampleReactLibs ["jquery", "jquery"] =
      Except.ok [(subprojects sampleReactLibs).get "jquery",
        (subprojects sampleReactLibs).get "jquery"] ∧
    [(subprojects sampleReactLibs).get "jquery",
      (subprojects sampleReactLibs).get "jquery"].length = ["jquery", "jquery"].length ∧
    [(subprojects sampleReactLibs).get "jquery",
      (subprojects sampleReactLibs).get "jquery"][0] =
    [(subprojects sampleReactLibs).get "jquery",
      (subprojects sampleReactLibs).get "jquery"][1] :=
  ⟨rfl,
   (resolve_duplicates sampleReactLibs ["jquery", "jquery"] _ rfl).1,
   (resolve_duplicates sampleReactLibs ["jquery", "jquery"] _ rfl).2 0 1
     (by decide) (by decide) (by decide) (by decide) rfl⟩

/-- Claim C6: fail-fast. If the exported function throws `e` on `xs`, it throws
the same `e` on `xs ++ ys`, whatever the names in `ys` are. -/
theorem resolve_fail_fast (r : ReactLibs) (xs ys : List String) (e : JSError)
    (herr : resolve r xs = Except.error e) :
    resolve r (xs ++ ys) = Except.error e := by
  obtain ⟨pre, m, post, hs, hpre, hm, he⟩ := resolve_error_inv r xs e herr
  have hsplit : xs ++ ys = pre ++ m :: (post ++ ys) := by simp [hs]
  rw [hsplit, he]
  exact resolve_of_first_undefined r pre (post ++ ys) m hpre hm

/-- Claim C6, witness: the error thrown on `["jquery", "nope"]` is the one thrown
when further names, known or unknown, follow. -/
theorem resolve_fail_fast_witness :
    resolve sampleReactLibs ["jquery", "nope"] = Except.error (notFound "nope") ∧
    resolve sampleReactLibs (["jquery", "nope"] ++ ["also-unknown", "mocha"]) =
      Except.error (notFound "nope") :=
  ⟨rfl,
   resolve_fail_fast sampleReactLibs ["jquery", "nope"] ["also-unknown", "mocha"]
     (notFound "nope") rfl⟩

/-- Claim C7: against a `./react` module whose two exports satisfy the invariant
of the spec, every one of the 25 property names of `subprojects` (`react` and
`reactDom` included) maps to a bundle whose `src` is a non-empty string and whose
`dest` is a non-empty string. -/
theorem registry_entries_nonempty (r : ReactLibs) (hr : r.exportsNonEmpty) :
    subprojectNames.length = 25 ∧
    ∀ k ∈ subprojectNames,
      ∃ b, (subprojects r).lookup k = some (JSValue.object b) ∧ b.src ≠ "" ∧ b.dest ≠ "" := by
  refine ⟨by decide, ?_⟩
  obtain ⟨a, b, ha, hb, ha1, ha2, hb1, hb2⟩ := hr
  intro k hk
  rcases List.mem_cons.1 hk with h | h
  · subst h
    exact ⟨a, by rw [← ha]; rfl, ha1, ha2⟩
  · rcases List.mem_cons.1 h with h | h
    · subst h
      exact ⟨b, by rw [← hb]; rfl, hb1, hb2⟩
    · exact lookup_defined r k h

/-- Claim C7, witness: the statement at the property names `react` and `jquery`,
against a module that exports two bundle objects with non-empty `src` and
`dest`. -/
theorem registry_entries_nonempty_witness :
    sampleReactLibs.exportsNonEmpty ∧
    (∃ b, (subprojects sampleReactLibs).lookup "react" = some (JSValue.object b) ∧
      b.src ≠ "" ∧ b.dest ≠ "") ∧
    (∃ b, (subprojects sampleReactLibs).lookup "jquery" = some (JSValue.object b) ∧
      b.src ≠ "" ∧ b.dest ≠ "") :=
  ⟨⟨_, _, rfl, rfl, by decide, by decide, by decide, by decide⟩,
   (registry_entries_nonempty sampleReactLibs
     ⟨_, _, rfl, rfl, by decide, by decide, by decide, by decide⟩).2 "react" (by decide),
   (registry_entries_nonempty sampleReactLibs
     ⟨_, _, rfl, rfl, by decide, by decide, by decide, by decide⟩).2 "jquery" (by decide)⟩

/-- Claim C8: the exported function leaves the table as it found it, for every
list of names and every table, whether it returns a list or throws. -/
theorem resolve_leaves_registry (modules : List String) (h : Heap) :
    (moduleExports modules h).2 = h ∧
    ((∃ out, (moduleExports modules h).1 = Except.ok out) ∨
      (∃ e, (moduleExports modules h).1 = Except.error e)) := by
  refine ⟨forEach_heap modules [] h, ?_⟩
  cases hres : (moduleExports modules h).1 with
  | error e => exact Or.inr ⟨e, rfl⟩
  | ok out => exact Or.inl ⟨out, rfl⟩

/-- Claim C9: lookup is case-sensitive. For every property name `n` of the table
and every string that equals `n` up to letter case but differs from it, the
exported function throws the error naming that string; no two property names of
the table differ only in letter case; `jQuery` and `reactdom` are rejected while
`jquery` is accepted. Letter case is folded on `A`-`Z`; the last part covers any
other way of ignoring case: a string that is neither a property name of the table
nor one of `Object.prototype` is rejected with the error naming it. -/
theorem resolve_case_sensitive (r : ReactLibs) :
    (∀ n n0 : String, n ∈ subprojectNames → sameUpToCase n0 n → n0 ≠ n →
      resolve r [n0] = Except.error { message := "Could not find subproject: " ++ n0 }) ∧
    (∀ k ∈ subprojectNames, ∀ k0 ∈ subprojectNames, sameUpToCase k0 k → k0 = k) ∧
    resolve r ["jQuery"] = Except.error { message := "Could not find subproject: jQuery" } ∧
    resolve r ["reactdom"] =
      Except.error { message := "Could not find subproject: reactdom" } ∧
    (∃ out, resolve r ["jquery"] = Except.ok out) ∧
    (∀ n0 : String, n0 ∉ subprojectNames → n0 ∉ objectPrototype →
      resolve r [n0] = Except.error { message := "Could not find subproject: " ++ n0 }) := by
  have miss : ∀ n0 : String, n0 ∉ subprojectNames → n0 ∉ objectPrototype →
      resolve r [n0] = Except.error (notFound n0) := by
    intro n0 hkey hproto
    have hget : (subprojects r).get n0 = JSValue.undefined := by
      unfold JSObject.get
      rw [(lookup_eq_none_iff_not_mem_keys _ n0).2 (by rw [keys_subprojects]; exact hkey)]
      simp [hproto]
    exact resolve_of_first_undefined r [] [] n0 (by simp) hget
  refine ⟨?_, ?_, rfl, rfl, ⟨_, rfl⟩, miss⟩
  · intro n n0 hn hsame hne
    refine miss n0 ?_ ?_
    · intro hmem
      exact hne (names_distinct_up_to_case n0 (List.mem_append_left _ hmem) n hn hsame)
    · intro hmem
      exact hne (names_distinct_up_to_case n0 (List.mem_append_right _ hmem) n hn hsame)
  · intro k hk k0 hk0 hsame
    exact names_distinct_up_to_case k0 (List.mem_append_left _ hk0) k hk hsame

/-- Claim C9, witness: `jQuery` equals the property name `jquery` up to letter case
and differs from it, and the exported function throws the error naming `jQuery`. -/
theorem resolve_case_sensitive_witness :
    "jquery" ∈ subprojectNames ∧ sameUpToCase "jQuery" "jquery" ∧ "jQuery" ≠ "jquery" ∧
    resolve sampleReactLibs ["jQuery"] =
      Except.error { message := "Could not find subproject: " ++ "jQuery" } :=
  ⟨by decide, by decide, by decide,
   (resolve_case_sensitive sampleReactLibs).1 "jquery" "jQuery"
     (by decide) (by decide) (by decide)⟩

/-- Claim C10 (amended): for every value of the `./react` module whose `react` and
`reactDom` are both not `undefined`, `resolve ["react", "reactDom"]` returns
exactly the two values the module holds under these names; when `react` is
`undefined` the call throws the error naming `react`, and when only `reactDom`
is `undefined` it throws the error naming `reactDom`. -/
theorem resolve_react (r : ReactLibs) :
    (r.react ≠ JSValue.undefined → r.reactDom ≠ JSValue.undefined →
      resolve r ["react", "reactDom"] = Except.ok [r.react, r.reactDom]) ∧
    (r.react = JSValue.undefined →
      resolve r ["react", "reactDom"] = Except.error (notFound "react")) ∧
    (r.react ≠ JSValue.undefined → r.reactDom = JSValue.undefined →
      resolve r ["react", "reactDom"] = Except.error (notFound "reactDom")) := by
  have h1 : (subprojects r).get "react" = r.react := rfl
  have h2 : (subprojects r).get "reactDom" = r.reactDom := rfl
  refine ⟨?_, ?_, ?_⟩
  · intro ha hb
    have := resolve_of_all_defined r ["react", "reactDom"] (by
      intro m hm
      rcases List.mem_cons.1 hm with rfl | hm
      · rw [h1]; exact ha
      · rw [List.mem_singleton.1 hm, h2]; exact hb)
    rw [this]
    simp [h1, h2]
  · intro ha
    exact resolve_of_first_undefined r [] ["reactDom"] "react" (by simp) (h1.trans ha)
  · intro ha hb
    exact resolve_of_first_undefined r ["react"] [] "reactDom"
      (by intro n hn; rw [List.mem_singleton.1 hn, h1]; exact ha) (h2.trans hb)

/-- Claim C10, witness: against a module exporting two bundles the call returns
exactly these two, in this order. -/
theorem resolve_react_witness :
    sampleReactLibs.react ≠ JSValue.undefined ∧
    sampleReactLibs.reactDom ≠ JSValue.undefined ∧
    resolve sampleReactLibs ["react", "reactDom"] =
      Except.ok [sampleReactLibs.react, sampleReactLibs.reactDom] :=
  ⟨by decide, by decide, (resolve_react sampleReactLibs).1 (by decide) (by decide)⟩

/-- Claim C10, counterexample: against a `./react` module that exports neither
name, `resolve ["react", "reactDom"]` returns no list; it throws the error
naming `react`. -/
theorem resolve_react_counterexample :
    resolve emptyReactLibs ["react", "reactDom"] =
      Except.error { message := "Could not find subproject: react" } :=
  rfl

/-! ## Lemmas on strings -/

theorem string_append_left_cancel (p a b : String) (h : p ++ a = p ++ b) : a = b := by
  have hd := congrArg String.data h
  simp only [String.data_append] at hd
  exact String.ext (List.append_cancel_left hd)

theorem string_starts_of_take (s p : String) (ht : s.data.take p.data.length = p.data)
    (hl : p.data.length < s.data.length) :
    ∃ rest : String, rest ≠ "" ∧ s = p ++ rest := by
  refine ⟨⟨s.data.drop p.data.length⟩, ?_, ?_⟩
  · intro hrest
    have hd : s.data.drop p.data.length = [] := congrArg String.data hrest
    have hle := List.drop_eq_nil_iff.1 hd
    omega
  · apply String.ext
    have hsplit := List.take_append_drop p.data.length s.data
    rw [ht] at hsplit
    rw [String.data_append]
    exact hsplit.symm

/-! ## The claims on the literal entries and on concatenation -/

/-- Claim C11: a missing `include` stays missing. `resolve ["cliqz-history"]`
returns one bundle with `src` `node_modules/cliqz-history/dist`, `dest`
`cliqz-history` and no `include` at all (not an empty list), and `cliqz-history`
is the only one of the 23 entries defined in the file without an `include`. -/
theorem resolve_cliqz_history (r : ReactLibs) :
    (∃ spec, resolve r ["cliqz-history"] = Except.ok [JSValue.object spec] ∧
      spec.src = "node_modules/cliqz-history/dist" ∧
      spec.dest = "cliqz-history" ∧
      spec.«include» = none ∧ spec.«include» ≠ some []) ∧
    definedBundles.length = 23 ∧
    (definedBundles.filter (fun kv => decide (kv.2.«include» = none))).map Prod.fst =
      ["cliqz-history"] :=
  ⟨⟨_, rfl, rfl, rfl, rfl, by decide⟩, by decide, by decide⟩

/-- Claim C12: each of the 23 entries defined in the file has a `src` that is
`node_modules/` followed by at least one more character, a `dest` that is
non-empty and does not start with `/`, and, when it has an `include`, a non-empty
list of non-empty strings none of which occurs twice. -/
theorem defined_entries_shape :
    definedBundles.length = 23 ∧
    ∀ kv ∈ definedBundles,
      (∃ rest : String, rest ≠ "" ∧ kv.2.src = "node_modules/" ++ rest) ∧
      kv.2.dest ≠ "" ∧ kv.2.dest.data.head? ≠ some '/' ∧
      ∀ files, kv.2.«include» = some files →
        files ≠ [] ∧ (∀ f ∈ files, f ≠ "") ∧ files.Nodup := by
  refine ⟨by decide, ?_⟩
  intro kv hkv
  simp only [definedBundles] at hkv
  fin_cases hkv <;>
    refine ⟨string_starts_of_take _ _ (by decide) (by decide), by decide, by decide, ?_⟩ <;>
    intro files hf <;> cases hf <;> decide

/-- Claim C12, witness: the shape holds at the entry `jquery`, whose `include`
is the list `["jquery.min.js"]`. -/
theorem defined_entries_shape_witness :
    (("jquery",
      { src := "node_modules/jquery/dist", «include» := some ["jquery.min.js"],
        dest := "vendor" }) : String × BundleSpec) ∈ definedBundles ∧
    (∃ rest : String, rest ≠ "" ∧ "node_modules/jquery/dist" = "node_modules/" ++ rest) ∧
    "vendor" ≠ "" ∧ "vendor".data.head? ≠ some '/' ∧
    (["jquery.min.js"] ≠ [] ∧ (∀ f ∈ ["jquery.min.js"], f ≠ "") ∧
      ["jquery.min.js"].Nodup) :=
  ⟨by decide,
   (defined_entries_shape.2 ("jquery",
      { src := "node_modules/jquery/dist", «include» := some ["jquery.min.js"],
        dest := "vendor" }) (by decide)).1,
   (defined_entries_shape.2 ("jquery",
      { src := "node_modules/jquery/dist", «include» := some ["jquery.min.js"],
        dest := "vendor" }) (by decide)).2.1,
   (defined_entries_shape.2 ("jquery",
      { src := "node_modules/jquery/dist", «include» := some ["jquery.min.js"],
        dest := "vendor" }) (by decide)).2.2.1,
   (defined_entries_shape.2 ("jquery",
      { src := "node_modules/jquery/dist", «include» := some ["jquery.min.js"],
        dest := "vendor" }) (by decide)).2.2.2 ["jquery.min.js"] rfl⟩

/-- Claim C13: the exported function distributes over concatenation. If it
returns `a` on `xs` and `b` on `ys`, it returns `a ++ b` on `xs ++ ys`; if it
returns a list on `xs` and throws `e` on `ys`, it throws the same `e` on
`xs ++ ys`. -/
theorem resolve_append (r : ReactLibs) (xs ys : List String) :
    (∀ a b : List JSValue, resolve r xs = Except.ok a → resolve r ys = Except.ok b →
      resolve r (xs ++ ys) = Except.ok (a ++ b)) ∧
    (∀ (a : List JSValue) (e : JSError), resolve r xs = Except.ok a →
      resolve r ys = Except.error e → resolve r (xs ++ ys) = Except.error e) := by
  constructor
  · intro a b ha hb
    obtain ⟨hao, hxs⟩ := resolve_ok_inv r xs a ha
    obtain ⟨hbo, hys⟩ := resolve_ok_inv r ys b hb
    have hall : ∀ m ∈ xs ++ ys, (subprojects r).get m ≠ JSValue.undefined := by
      intro m hm
      rcases List.mem_append.1 hm with h | h
      · exact hxs m h
      · exact hys m h
    rw [resolve_of_all_defined r (xs ++ ys) hall, hao, hbo, List.map_append]
  · intro a e ha he
    obtain ⟨-, hxs⟩ := resolve_ok_inv r xs a ha
    obtain ⟨pre, m, post, hs, hpre, hm, hem⟩ := resolve_error_inv r ys e he
    have hsplit : xs ++ ys = (xs ++ pre) ++ m :: post := by simp [hs]
    have hall : ∀ n ∈ xs ++ pre, (subprojects r).get n ≠ JSValue.undefined := by
      intro n hn
      rcases List.mem_append.1 hn with h | h
      · exact hxs n h
      · exact hpre n h
    rw [hsplit, hem]
    exact resolve_of_first_undefined r (xs ++ pre) post m hall hm

/-- Claim C13, witness: `["jquery"] ++ ["mocha"]` resolves to the two results
appended, and `["jquery"] ++ ["nope"]` throws the error that `["nope"]` throws. -/
theorem resolve_append_witness :
    resolve sampleReactLibs (["jquery"] ++ ["mocha"]) =
      Except.ok ([(subprojects sampleReactLibs).get "jquery"] ++
        [(subprojects sampleReactLibs).get "mocha"]) ∧
    resolve sampleReactLibs ["nope"] = Except.error (notFound "nope") ∧
    resolve sampleReactLibs (["jquery"] ++ ["nope"]) = Except.error (notFound "nope") :=
  ⟨(resolve_append sampleReactLibs ["jquery"] ["mocha"]).1 _ _ rfl rfl,
   rfl,
   (resolve_append sampleReactLibs ["jquery"] ["nope"]).2 _ _ rfl rfl⟩

/-- Claim C14, at the failing input: `toString` is not one of the 25 property
names of `subprojects` and the table has no own property of that name, yet the
exported function returns a list on `["toString"]`; its one element is the value
inherited from `Object.prototype`, which is none of the values the table holds. -/
theorem resolve_inherited_name (r : ReactLibs) :
    "toString" ∉ subprojectNames ∧
    (subprojects r).lookup "toString" = none ∧
    resolve r ["toString"] = Except.ok [JSValue.inherited "toString"] ∧
    JSValue.inherited "toString" ∉ (subprojects sampleReactLibs).map Prod.snd :=
  ⟨by decide, rfl, rfl, by decide⟩

/-- Claim C15: whenever the exported function throws, the message of the error is
exactly `Could not find subproject: ` followed by the first name of the input
whose read is `undefined`; hence the errors of two failing calls carry the same
message if and only if the two calls stopped at the same name. -/
theorem resolve_error_message (r : ReactLibs) (names1 names2 : List String)
    (e1 e2 : JSError)
    (h1 : resolve r names1 = Except.error e1) (h2 : resolve r names2 = Except.error e2) :
    ∃ m1 m2 : String,
      (∃ pre post, names1 = pre ++ m1 :: post ∧
        (∀ n ∈ pre, (subprojects r).get n ≠ JSValue.undefined) ∧
        (subprojects r).get m1 = JSValue.undefined) ∧
      (∃ pre post, names2 = pre ++ m2 :: post ∧
        (∀ n ∈ pre, (subprojects r).get n ≠ JSValue.undefined) ∧
        (subprojects r).get m2 = JSValue.undefined) ∧
      e1.message = "Could not find subproject: " ++ m1 ∧
      e2.message = "Could not find subproject: " ++ m2 ∧
      (e1.message = e2.message ↔ m1 = m2) := by
  obtain ⟨pre1, m1, post1, hs1, hpre1, hm1, he1⟩ := resolve_error_inv r names1 e1 h1
  obtain ⟨pre2, m2, post2, hs2, hpre2, hm2, he2⟩ := resolve_error_inv r names2 e2 h2
  refine ⟨m1, m2, ⟨pre1, post1, hs1, hpre1, hm1⟩, ⟨pre2, post2, hs2, hpre2, hm2⟩, ?_, ?_, ?_⟩
  · rw [he1]; rfl
  · rw [he2]; rfl
  · rw [he1, he2]
    constructor
    · intro h
      exact string_append_left_cancel "Could not find subproject: " m1 m2 h
    · intro h
      rw [h]

/-- Claim C15, witness: the calls on `["jquery", "nope"]` and on `["nope", "zzz"]`
both stop at `nope` and throw errors with the message
`Could not find subproject: nope`. -/
theorem resolve_error_message_witness :
    resolve sampleReactLibs ["jquery", "nope"] =
      Except.error { message := "Could not find subproject: nope" } ∧
    resolve sampleReactLibs ["nope", "zzz"] =
      Except.error { message := "Could not find subproject: nope" } ∧
    ∃ m1 m2 : String,
      (∃ pre post, ["jquery", "nope"] = pre ++ m1 :: post ∧
        (∀ n ∈ pre, (subprojects sampleReactLibs).get n ≠ JSValue.undefined) ∧
        (subprojects sampleReactLibs).get m1 = JSValue.undefined) ∧
      (∃ pre post, ["nope", "zzz"] = pre ++ m2 :: post ∧
        (∀ n ∈ pre, (subprojects sampleReactLibs).get n ≠ JSValue.undefined) ∧
        (subprojects sampleReactLibs).get m2 = JSValue.undefined) ∧
      (notFound "nope").message = "Could not find subproject: " ++ m1 ∧
      (notFound "nope").message = "Could not find subproject: " ++ m2 ∧
      ((notFound "nope").message = (notFound "nope").message ↔ m1 = m2) :=
  ⟨rfl, rfl,
   resolve_error_message sampleReactLibs ["jquery", "nope"] ["nope", "zzz"]
     (notFound "nope") (notFound "nope") rfl rfl⟩

end Bundles
